import Mathlib

/-!
# AI-BrowserGuard: verification of the delegation, detection and session core

Shallow embedding of the TypeScript sources of the AI-BrowserGuard browser
extension, together with theorems settling the frozen specification claims.

Conventions used throughout the embedding:
* ISO-8601 timestamps are modelled as epoch milliseconds (`Nat`); the source
  only ever compares them through `Date.getTime()`.
* `crypto.randomUUID()` results are passed in as explicit `id` arguments.
* JavaScript numbers that feed statistical computations are modelled as `ℚ`;
  `Math.sqrt` is abstracted as an explicit function argument where it occurs.
* Functions that can observably throw are modelled with `Except Unit`.
-/

namespace BrowserGuard

/-- The closed capability enum from `src/types/agent.ts`
(`navigate`, `read-dom`, `click`, `type-text`, `submit-form`, `download-file`,
`open-tab`, `close-tab`, `screenshot`, `execute-script`, `modify-dom`). -/
inductive AgentCapability where
  | navigate | readDom | click | typeText | submitForm
  | downloadFile | openTab | closeTab | screenshot
  | executeScript | modifyDom
  deriving DecidableEq, Repr

/-- The `'allow' | 'block'` action tag of an `ActionRestriction` /
`SitePattern` from `src/types/delegation.ts`. -/
inductive RestrictionAction where
  | allow | block
  deriving DecidableEq, Repr

/-- `SitePattern` from `src/types/delegation.ts`: a glob pattern plus the
action taken when it matches. -/
structure SitePattern where
  pattern : String
  action : RestrictionAction
  deriving DecidableEq, Repr

/-- `ActionRestriction` from `src/types/delegation.ts`. -/
structure ActionRestriction where
  capability : AgentCapability
  action : RestrictionAction
  deriving DecidableEq, Repr

/-- `TimeBound` from `src/types/delegation.ts`; `grantedAt`/`expiresAt` are
epoch milliseconds (the source stores ISO strings and compares their
`getTime()` values). -/
structure TimeBound where
  durationMinutes : Nat
  grantedAt : Nat
  expiresAt : Nat
  deriving DecidableEq, Repr

/-- `DelegationScope` from `src/types/delegation.ts`. -/
structure DelegationScope where
  sitePatterns : List SitePattern
  actionRestrictions : List ActionRestriction
  timeBound : Option TimeBound
  deriving DecidableEq, Repr

/-- `DelegationPreset` (`'readOnly' | 'limited' | 'fullAccess'`). -/
inductive DelegationPreset where
  | readOnly | limited | fullAccess
  deriving DecidableEq, Repr

/-- `DelegationRule` from `src/types/delegation.ts`. `createdAt` is epoch
milliseconds; `label` keeps its optionality. -/
structure DelegationRule where
  id : String
  preset : DelegationPreset
  scope : DelegationScope
  createdAt : Nat
  isActive : Bool
  label : Option String
  deriving DecidableEq, Repr

/-- `DelegationToken` from `src/types/delegation.ts`. The `scope`, `issuedAt`
and `expiresAt` fields of the source record are never read by the kill-switch
code under verification and are omitted here. -/
structure DelegationToken where
  tokenId : String
  ruleId : String
  agentId : String
  revoked : Bool
  deriving DecidableEq, Repr

/-- `READ_ONLY_CAPABILITIES` from `src/delegation/rules.ts`. -/
def READ_ONLY_CAPABILITIES : List AgentCapability :=
  [.navigate, .readDom]

/-- `LIMITED_CAPABILITIES` from `src/delegation/rules.ts`. -/
def LIMITED_CAPABILITIES : List AgentCapability :=
  [.navigate, .readDom, .click, .typeText]

/-- `ALL_CAPABILITIES` from `src/delegation/rules.ts`. -/
def ALL_CAPABILITIES : List AgentCapability :=
  [.navigate, .readDom, .click, .typeText, .submitForm,
   .downloadFile, .openTab, .closeTab, .screenshot,
   .executeScript, .modifyDom]

/-- `buildActionRestrictions` from `src/delegation/rules.ts`: every capability
in `ALL_CAPABILITIES` is mapped to `allow` when listed in `allowed`, else to
`block`. -/
def buildActionRestrictions (allowed : List AgentCapability) : List ActionRestriction :=
  ALL_CAPABILITIES.map (fun cap =>
    { capability := cap,
      action := if allowed.contains cap then .allow else .block })

/-- The options bag of `createRuleFromPreset` from `src/delegation/rules.ts`. -/
structure RuleOptions where
  sitePatterns : Option (List SitePattern)
  durationMinutes : Option Nat
  label : Option String
  deriving Repr

/-- `createRuleFromPreset` from `src/delegation/rules.ts`. `now` is the
`new Date()` taken at entry (epoch ms) and `id` the generated UUID. -/
def createRuleFromPreset (preset : DelegationPreset) (options : RuleOptions)
    (now : Nat) (id : String) : DelegationRule :=
  let scope : DelegationScope :=
    match preset with
    | .readOnly =>
        { sitePatterns := [],
          actionRestrictions := buildActionRestrictions READ_ONLY_CAPABILITIES,
          timeBound := none }
    | .limited =>
        let durationMinutes := options.durationMinutes.getD 60
        let expiresAt := now + durationMinutes * 60000
        { sitePatterns := options.sitePatterns.getD [],
          actionRestrictions := buildActionRestrictions LIMITED_CAPABILITIES,
          timeBound := some
            { durationMinutes := durationMinutes,
              grantedAt := now,
              expiresAt := expiresAt } }
    | .fullAccess =>
        { sitePatterns := [],
          actionRestrictions := buildActionRestrictions ALL_CAPABILITIES,
          timeBound := none }
  { id := id,
    preset := preset,
    scope := scope,
    createdAt := now,
    isActive := true,
    label := options.label }

/-- Result record of `evaluateActionRestrictions`. -/
structure ActionRestrictionResult where
  allowed : Bool
  matchedRestriction : Option ActionRestriction
  deriving DecidableEq, Repr

/-- `evaluateActionRestrictions` from `src/delegation/rules.ts`: look the
capability up in the restriction list; an absent capability is denied
(default-block). -/
def evaluateActionRestrictions (action : AgentCapability)
    (restrictions : List ActionRestriction) : ActionRestrictionResult :=
  match restrictions.find? (fun r => r.capability = action) with
  | none => { allowed := false, matchedRestriction := none }
  | some restriction =>
      { allowed := restriction.action = .allow,
        matchedRestriction := some restriction }

/-- `isTimeBoundExpired` from `src/delegation/rules.ts`; `now` is the
`new Date().getTime()` of the call. -/
def isTimeBoundExpired (timeBound : Option TimeBound) (now : Nat) : Bool :=
  match timeBound with
  | none => false
  | some tb => now > tb.expiresAt

/-- `revokeToken` from `src/delegation/rules.ts`: returns a copy of the token
with `revoked` set; the argument itself is not written to. -/
def revokeToken (token : DelegationToken) : DelegationToken :=
  { token with revoked := true }

/-! ## Glob matching (`matchGlob` in `src/delegation/rules.ts`)

The source builds a JavaScript regex string through a chain of `replace`
calls and matches it anchored (`^...$`).  We embed the replacement chain
literally on `List Char` and interpret the resulting regex string with a
small matcher for the fragment those chains can produce: single-character
literals (possibly backslash-escaped), `.`, the class unit `[^.]`, and the
`*` quantifier.  JavaScript regex behaviours modelled: a `*` with nothing
to repeat, or directly after another quantifier, makes `new RegExp` throw
(the surrounding `try` then yields `false`); `.` matches any character
(URLs and hostnames contain no newlines).  Patterns relying on further
regex metacharacters that the source leaves unescaped (`?`, and in the
hostname branch also `+`, `(`, `)`, ...) are outside the modelled fragment
and are treated as literals here. -/

/-- Atoms of the regex fragment produced by `matchGlob`'s string pipeline. -/
inductive RAtom where
  | lit (c : Char)
  | anyChar
  | noDotOne
  deriving DecidableEq, Repr

/-- A regex-fragment atom, either appearing once or under a `*` quantifier. -/
inductive RTok where
  | once (a : RAtom)
  | star (a : RAtom)
  deriving DecidableEq, Repr

/-- `.replace(/\./g, '\\.')`: escape every dot. -/
def escapeDots : List Char → List Char
  | [] => []
  | c :: rest =>
      if c = '.' then '\\' :: '.' :: escapeDots rest
      else c :: escapeDots rest

/-- `.replace(/\*\*/g, '.*')`: left-to-right, non-overlapping replacement of
star pairs. -/
def replaceDoubleStar : List Char → List Char
  | '*' :: '*' :: rest => '.' :: '*' :: replaceDoubleStar rest
  | c :: rest => c :: replaceDoubleStar rest
  | [] => []

/-- `.replace(/\*/g, '[^.]*')`: replace every remaining star of the input by
the class unit (one pass; stars inside the replacement are not revisited). -/
def replaceSingleStar : List Char → List Char
  | [] => []
  | c :: rest =>
      if c = '*' then '[' :: '^' :: '.' :: ']' :: '*' :: replaceSingleStar rest
      else c :: replaceSingleStar rest

/-- The escape class of `.replace(/[.+^${}()|[\]\\]/g, '\\$&')` — note that
`*` and `?` are not in it. -/
def REGEX_ESCAPE_CLASS : List Char :=
  ['.', '+', '^', '$', '\x7b', '\x7d', '(', ')', '|', '[', ']', '\\']

/-- `.replace(/[.+^${}()|[\]\\]/g, '\\$&')`: escape the listed
metacharacters. -/
def escapeMeta : List Char → List Char
  | [] => []
  | c :: rest =>
      if REGEX_ESCAPE_CLASS.contains c then '\\' :: c :: escapeMeta rest
      else c :: escapeMeta rest

/-- `.replace(/\\\*/g, '.*')`: replace backslash-star pairs (left-to-right,
non-overlapping). -/
def replaceBackslashStar : List Char → List Char
  | '\\' :: '*' :: rest => '.' :: '*' :: replaceBackslashStar rest
  | c :: rest => c :: replaceBackslashStar rest
  | [] => []

/-- The regex string built for a pattern without a scheme (hostname branch of
`matchGlob`). -/
def hostRegexStr (pattern : List Char) : List Char :=
  replaceSingleStar (replaceDoubleStar (escapeDots pattern))

/-- The regex string built for a pattern containing a scheme (full-URL branch
of `matchGlob`). -/
def fullRegexStr (pattern : List Char) : List Char :=
  replaceBackslashStar (escapeMeta pattern)

/-- Count the leading stars of a regex string (quantifiers following an
atom) and return the remainder. -/
def countStars : List Char → Nat × List Char
  | '*' :: rest => let (k, r) := countStars rest; (k + 1, r)
  | cs => (0, cs)

/-- Parse the regex fragment into tokens; `none` models `new RegExp`
throwing a syntax error (dangling escape, nothing to repeat, or a nested
quantifier). Fuel-driven; `parseRegex` supplies sufficient fuel. -/
def parseRegexGo : Nat → List Char → Option (List RTok)
  | _, [] => some []
  | 0, _ :: _ => none
  | fuel + 1, cs =>
      let atomRest : Option (RAtom × List Char) :=
        match cs with
        | '*' :: _ => none
        | '\\' :: [] => none
        | '\\' :: c :: rest => some (.lit c, rest)
        | '[' :: '^' :: '.' :: ']' :: rest => some (.noDotOne, rest)
        | '[' :: _ => none
        | '.' :: rest => some (.anyChar, rest)
        | c :: rest => some (.lit c, rest)
        | [] => none
      match atomRest with
      | none => none
      | some (a, rest) =>
          match countStars rest with
          | (0, rest2) => (parseRegexGo fuel rest2).map (fun ts => .once a :: ts)
          | (1, rest2) => (parseRegexGo fuel rest2).map (fun ts => .star a :: ts)
          | (_ + 2, _) => none

/-- Parse a generated regex string into the token list, or `none` when the
`RegExp` constructor would throw. -/
def parseRegex (cs : List Char) : Option (List RTok) :=
  parseRegexGo cs.length cs

/-- Whether a single regex atom matches a character. -/
def matchAtom : RAtom → Char → Bool
  | .lit d, c => c = d
  | .anyChar, _ => true
  | .noDotOne, c => c ≠ '.'

/-- Anchored matching of the token list against a character list, with
backtracking over `*`.  Fuel-driven; each call consumes a token or a
character, so `matchToks` supplies sufficient fuel. -/
def matchToksGo : Nat → List RTok → List Char → Bool
  | _, [], [] => true
  | _, [], _ :: _ => false
  | 0, _ :: _, _ => false
  | _ + 1, .once _ :: _, [] => false
  | fuel + 1, .once a :: ts, c :: s => matchAtom a c && matchToksGo fuel ts s
  | fuel + 1, .star a :: ts, s =>
      matchToksGo fuel ts s ||
        (match s with
         | [] => false
         | c :: s2 => matchAtom a c && matchToksGo fuel (.star a :: ts) s2)

/-- Anchored match (`^...$`) of a parsed regex against a string's
characters. -/
def matchToks (toks : List RTok) (s : List Char) : Bool :=
  matchToksGo (toks.length + s.length + 1) toks s

/-- `pattern.includes('://')`. -/
def hasSchemeSep : List Char → Bool
  | ':' :: '/' :: '/' :: _ => true
  | _ :: rest => hasSchemeSep rest
  | [] => false

/-- Whether a character may appear in a URL scheme after the first letter. -/
def isSchemeChar (c : Char) : Bool :=
  c.isAlphanum || c = '+' || c = '-' || c = '.'

/-- Model of `new URL(url).hostname` for hierarchical
`scheme://[userinfo@]host[:port][/...]` URLs: the scheme must start with a
letter and consist of scheme characters, the host (after the last `@` of the
authority, before any port) must be non-empty, and is lowercased as the URL
parser does.  Any other shape is mapped to `none`, modelling the constructor
throwing (the surrounding `try` in `matchGlob` turns that into `false`). -/
def parseHostname (url : List Char) : Option (List Char) :=
  let scheme := url.takeWhile (fun c => c ≠ ':')
  let rest := url.drop scheme.length
  match scheme, rest with
  | s :: srest, ':' :: '/' :: '/' :: afterSep =>
      if s.isAlpha && srest.all isSchemeChar then
        let authority := afterSep.takeWhile (fun c => c ≠ '/' && c ≠ '?' && c ≠ '#')
        let hostPort := (authority.reverse.takeWhile (fun c => c ≠ '@')).reverse
        let host := hostPort.takeWhile (fun c => c ≠ ':')
        if host.isEmpty then none else some (host.map Char.toLower)
      else none
  | _, _ => none

/-- `matchGlob` from `src/delegation/rules.ts`: a pattern without `://` is
turned into a hostname regex and matched against the parsed hostname; a
pattern with `://` is turned into a full-URL regex and matched against the
raw URL string.  Any exception (URL parsing, regex construction) yields
`false`. -/
def matchGlob (url : String) (pattern : String) : Bool :=
  if hasSchemeSep pattern.data then
    match parseRegex (fullRegexStr pattern.data) with
    | none => false
    | some toks => matchToks toks url.data
  else
    match parseHostname url.data with
    | none => false
    | some host =>
        match parseRegex (hostRegexStr pattern.data) with
        | none => false
        | some toks => matchToks toks host

/-- Result record of `evaluateSitePatterns`. -/
structure SitePatternResult where
  allowed : Bool
  matchedPattern : Option SitePattern
  deriving DecidableEq, Repr

/-- `evaluateSitePatterns` from `src/delegation/rules.ts`: first matching
pattern wins; otherwise the default action applies. -/
def evaluateSitePatterns (url : String) (patterns : List SitePattern)
    (defaultAction : RestrictionAction) : SitePatternResult :=
  match patterns with
  | [] => { allowed := defaultAction = .allow, matchedPattern := none }
  | p :: rest =>
      if matchGlob url p.pattern then
        { allowed := p.action = .allow, matchedPattern := some p }
      else evaluateSitePatterns url rest defaultAction

/-- The string used for a capability inside interpolated reasons
(the literal union values of `AgentCapability` in `src/types/agent.ts`). -/
def capabilityLabel : AgentCapability → String
  | .navigate => "navigate"
  | .readDom => "read-dom"
  | .click => "click"
  | .typeText => "type-text"
  | .submitForm => "submit-form"
  | .downloadFile => "download-file"
  | .openTab => "open-tab"
  | .closeTab => "close-tab"
  | .screenshot => "screenshot"
  | .executeScript => "execute-script"
  | .modifyDom => "modify-dom"

/-- The string used for a preset inside interpolated reasons. -/
def presetLabel : DelegationPreset → String
  | .readOnly => "readOnly"
  | .limited => "limited"
  | .fullAccess => "fullAccess"

/-- The `{ allowed, reason }` record returned by `evaluateRule`. -/
structure RuleDecision where
  allowed : Bool
  reason : String
  deriving DecidableEq, Repr

/-- `evaluateRule` from `src/delegation/rules.ts`: active check, expiry
check, site-pattern check, action-restriction check, in that order, each
short-circuiting with a deny. `now` is the evaluation time in epoch ms. -/
def evaluateRule (now : Nat) (rule : DelegationRule)
    (action : AgentCapability) (url : String) : RuleDecision :=
  if rule.isActive = false then
    { allowed := false, reason := "Delegation rule is not active." }
  else if isTimeBoundExpired rule.scope.timeBound now then
    { allowed := false, reason := "Delegation has expired." }
  else
    let defaultSiteAction : RestrictionAction :=
      if rule.preset = .limited then .block else .allow
    let siteResult := evaluateSitePatterns url rule.scope.sitePatterns defaultSiteAction
    if siteResult.allowed = false then
      let patternDetail :=
        match siteResult.matchedPattern with
        | some p => " (matched: " ++ p.pattern ++ ")"
        | none => " (default policy)"
      { allowed := false, reason := "URL blocked by site policy" ++ patternDetail ++ "." }
    else
      let actionResult := evaluateActionRestrictions action rule.scope.actionRestrictions
      if actionResult.allowed = false then
        { allowed := false,
          reason := "Action \"" ++ capabilityLabel action ++
            "\" is not permitted under " ++ presetLabel rule.preset ++ " delegation." }
      else
        { allowed := true, reason := "Action permitted by delegation rules." }

/-- A call site of `evaluateRule` as the caller observes it: the returned
decision together with the rule object after the call.  The source function
performs no writes to `rule` (and returns no rule), so the observed rule is
the argument itself. -/
def evaluateRuleObserved (now : Nat) (rule : DelegationRule)
    (action : AgentCapability) (url : String) : RuleDecision × DelegationRule :=
  (evaluateRule now rule action url, rule)

/-! ## Detection fusion (`runDetectionSweep` in `src/content/detector.ts`)

The sweep calls the probe functions (`detectWebDriverFlag`,
`detectNavigatorAnomalies`, `detectSeleniumMarkers`, `detectCdpConnection`,
`detectAllFrameworks`) and fuses their results.  The probes read host state;
we take their results as inputs.  Of each probe result only the `detected`
flag and `confidence` feed the verdict fields under verification; `method`,
`detail` and `signals` are omitted. -/

/-- The confidence ordering `CONFIDENCE_ORDER = ['low','medium','high',
'confirmed']` from `src/content/detector.ts`. -/
inductive DetectionConfidence where
  | low | medium | high | confirmed
  deriving DecidableEq, Repr

/-- `confidenceRank`: the index in `CONFIDENCE_ORDER`. -/
def confidenceRank : DetectionConfidence → Nat
  | .low => 0
  | .medium => 1
  | .high => 2
  | .confirmed => 3

/-- `maxConfidence` from `src/content/detector.ts`: a fold with initial
value `'low'`, keeping the strictly larger rank. -/
def maxConfidence (confidences : List DetectionConfidence) : DetectionConfidence :=
  confidences.foldl
    (fun best c => if confidenceRank c > confidenceRank best then c else best)
    .low

/-- The `detected`/`confidence` part of a probe's result record. -/
structure ProbeResult where
  detected : Bool
  confidence : DetectionConfidence
  deriving DecidableEq, Repr

/-- The `agentDetected`/`overallConfidence` part of
`DetectionVerdictResult`. -/
structure SweepVerdict where
  agentDetected : Bool
  overallConfidence : DetectionConfidence
  deriving DecidableEq, Repr

/-- The verdict computation of `runDetectionSweep`
(`src/content/detector.ts` lines 102-155), given the five probe outcomes:
`detectedResults` counts every positive probe including the navigator one,
while the `confidences` list collects the confidences of the webdriver,
selenium, cdp and framework results only — the navigator confidence is not
pushed, exactly as in the source.  Escalation: 3 or more positives force
`confirmed`, 2 raise to at least `high`.  A result below
`minimumConfidence` is reported as not detected. -/
def runDetectionSweep (minimumConfidence : DetectionConfidence)
    (webDriverResult navigatorResult seleniumResult cdpResult : ProbeResult)
    (frameworkResults : List ProbeResult) : SweepVerdict :=
  let detectedCount :=
    (if webDriverResult.detected then 1 else 0) +
    (if navigatorResult.detected then 1 else 0) +
    (if seleniumResult.detected then 1 else 0) +
    (if cdpResult.detected then 1 else 0) +
    (frameworkResults.filter (fun r => r.detected)).length
  let agentDetected := detectedCount > 0
  let confidences :=
    (if webDriverResult.detected then [webDriverResult.confidence] else []) ++
    (if seleniumResult.detected then [seleniumResult.confidence] else []) ++
    (if cdpResult.detected then [cdpResult.confidence] else []) ++
    (frameworkResults.filter (fun r => r.detected)).map (fun r => r.confidence)
  let base := maxConfidence confidences
  let overallConfidence :=
    if agentDetected then
      if detectedCount ≥ 3 && confidenceRank base < confidenceRank .confirmed then
        .confirmed
      else if detectedCount ≥ 2 && confidenceRank base < confidenceRank .high then
        .high
      else base
    else .low
  if agentDetected && confidenceRank overallConfidence < confidenceRank minimumConfidence then
    { agentDetected := false, overallConfidence := overallConfidence }
  else
    { agentDetected := agentDetected, overallConfidence := overallConfidence }

/-- `runDetectionSweep` with possibly-throwing probe calls: the source calls
the five probes in sequence with no `try`/`catch`, so an exception raised by
any probe propagates out of the sweep.  `Except Unit` models "the call threw"
without caring about the error value. -/
def runDetectionSweepE (minimumConfidence : DetectionConfidence)
    (webDriverCall navigatorCall seleniumCall cdpCall : Except Unit ProbeResult)
    (frameworksCall : Except Unit (List ProbeResult)) : Except Unit SweepVerdict := do
  let webDriverResult ← webDriverCall
  let navigatorResult ← navigatorCall
  let seleniumResult ← seleniumCall
  let cdpResult ← cdpCall
  let frameworkResults ← frameworksCall
  pure (runDetectionSweep minimumConfidence webDriverResult navigatorResult
    seleniumResult cdpResult frameworkResults)

/-! ## Behavioral analyzer (`src/detection/behavioral.ts`)

Event numbers (coordinates, timestamps) are modelled as `ℚ`.  `Math.sqrt`
is taken as an explicit function argument `sqrt`; the sample-size guards
under verification return before any of it is used.  The human-readable
`detail` strings interpolate floating-point renderings (`toFixed`) and are
omitted from the embedded result. -/

/-- `BEHAVIORAL_THRESHOLDS` from `src/detection/behavioral.ts`. -/
def mouseIntervalStdDevMin : ℚ := 15
def integerCoordinateRatioMax : ℚ := 95 / 100
def keyIntervalStdDevMin : ℚ := 20
def syntheticEventRatioMax : ℚ := 1 / 2
def minimumEventsRequired : Nat := 20

/-- `computeMean` from `src/detection/behavioral.ts`. -/
def computeMean (values : List ℚ) : ℚ :=
  if values.length = 0 then 0
  else values.sum / values.length

/-- `computeStdDev` from `src/detection/behavioral.ts`; the source returns
`Math.sqrt(variance)` with `variance = Σ (v - mean)² / (n - 1)`. -/
def computeStdDev (sqrt : ℚ → ℚ) (values : List ℚ) : ℚ :=
  if values.length < 2 then 0
  else
    let mean := values.sum / (values.length : ℚ)
    let variance :=
      (values.map (fun v => (v - mean) ^ 2)).sum / ((values.length - 1 : Nat) : ℚ)
    sqrt variance

/-- A buffered mouse event (`type`, `clientX`, `clientY`, `timestamp`,
`isTrusted`). -/
structure MouseEventSample where
  type : String
  clientX : ℚ
  clientY : ℚ
  timestamp : ℚ
  isTrusted : Bool

/-- A buffered click-precision sample (`clientX`, `clientY`, `targetRect`,
`timestamp`). -/
structure ClickSample where
  clientX : ℚ
  clientY : ℚ
  rectX : ℚ
  rectY : ℚ
  rectWidth : ℚ
  rectHeight : ℚ
  timestamp : ℚ

/-- `BehavioralMetrics` from `src/detection/behavioral.ts`. -/
structure BehavioralMetrics where
  averageMouseInterval : ℚ
  mouseIntervalStdDev : ℚ
  integerCoordinateRatio : ℚ
  averageKeyInterval : ℚ
  keyIntervalStdDev : ℚ
  syntheticEventRatio : ℚ
  clicksWithoutMovement : Nat
  totalEventsAnalyzed : Nat

/-- `emptyMetrics` from `src/detection/behavioral.ts`. -/
def emptyMetrics : BehavioralMetrics :=
  { averageMouseInterval := 0, mouseIntervalStdDev := 0,
    integerCoordinateRatio := 0, averageKeyInterval := 0,
    keyIntervalStdDev := 0, syntheticEventRatio := 0,
    clicksWithoutMovement := 0, totalEventsAnalyzed := 0 }

/-- `BehavioralDetectionResult` without the omitted `detail` string;
`method` keeps the source's literal tag. -/
structure BehavioralDetectionResult where
  detected : Bool
  method : String
  confidence : DetectionConfidence
  metrics : BehavioralMetrics

/-- The clicks-without-preceding-movement count of `analyzeMouseBehavior`:
a click at index `i` counts unless the event at `i - 1` is a mousemove. -/
def countClicksWithoutMovement : Option MouseEventSample → List MouseEventSample → Nat
  | _, [] => 0
  | prev, e :: rest =>
      let counts :=
        e.type = "click" &&
          !(match prev with
            | some p => p.type = "mousemove"
            | none => false)
      (if counts then 1 else 0) + countClicksWithoutMovement (some e) rest

/-- `analyzeMouseBehavior` from `src/detection/behavioral.ts`: below 20
events, return a negative result with empty metrics; otherwise compute
interval, coordinate and synthetic-ratio metrics and collect anomalies in
source order. -/
def analyzeMouseBehavior (sqrt : ℚ → ℚ)
    (events : List MouseEventSample) : BehavioralDetectionResult :=
  if events.length < minimumEventsRequired then
    { detected := false, method := "behavioral-timing", confidence := .low,
      metrics := { emptyMetrics with totalEventsAnalyzed := events.length } }
  else
    let intervals := List.zipWith (fun prev next => next.timestamp - prev.timestamp)
      events events.tail
    let averageMouseInterval := computeMean intervals
    let mouseIntervalStdDev := computeStdDev sqrt intervals
    let integerCount := (events.filter (fun e =>
      e.clientX = (⌊e.clientX⌋ : ℚ) && e.clientY = (⌊e.clientY⌋ : ℚ))).length
    let integerCoordinateRatio := (integerCount : ℚ) / (events.length : ℚ)
    let syntheticCount := (events.filter (fun e => !e.isTrusted)).length
    let syntheticEventRatio := (syntheticCount : ℚ) / (events.length : ℚ)
    let clicksWithoutMovement := countClicksWithoutMovement none events
    let anomalies : List String :=
      (if mouseIntervalStdDev < mouseIntervalStdDevMin
        then ["uniform mouse timing"] else []) ++
      (if integerCoordinateRatio > integerCoordinateRatioMax
        then ["integer-only coordinates"] else []) ++
      (if syntheticEventRatio > syntheticEventRatioMax
        then ["high synthetic event ratio"] else [])
    let detected := anomalies.length > 0
    let confidence : DetectionConfidence :=
      if anomalies.length ≥ 3 then .high
      else if anomalies.length ≥ 2 then .medium
      else .low
    { detected := detected, method := "behavioral-timing", confidence := confidence,
      metrics :=
        { averageMouseInterval := averageMouseInterval,
          mouseIntervalStdDev := mouseIntervalStdDev,
          integerCoordinateRatio := integerCoordinateRatio,
          averageKeyInterval := 0, keyIntervalStdDev := 0,
          syntheticEventRatio := syntheticEventRatio,
          clicksWithoutMovement := clicksWithoutMovement,
          totalEventsAnalyzed := events.length } }

/-- `analyzeClickPrecision` from `src/detection/behavioral.ts`: below 5
clicks, return a negative result; otherwise compare the std deviation and
mean of the center offsets (`sqrt(dx² + dy²)`) against the 2px / 3px
floors. -/
def analyzeClickPrecision (sqrt : ℚ → ℚ)
    (clicks : List ClickSample) : BehavioralDetectionResult :=
  if clicks.length < 5 then
    { detected := false, method := "behavioral-precision", confidence := .low,
      metrics := { emptyMetrics with totalEventsAnalyzed := clicks.length } }
  else
    let offsets := clicks.map (fun click =>
      let centerX := click.rectX + click.rectWidth / 2
      let centerY := click.rectY + click.rectHeight / 2
      sqrt ((click.clientX - centerX) ^ 2 + (click.clientY - centerY) ^ 2))
    let stdDev := computeStdDev sqrt offsets
    let meanOffset := computeMean offsets
    let detected := stdDev < 2 && meanOffset < 3
    { detected := detected, method := "behavioral-precision",
      confidence := if detected then .medium else .low,
      metrics := { emptyMetrics with totalEventsAnalyzed := clicks.length } }

/-! ## Kill switch (`executeBackgroundKillSwitch` in `src/killswitch/index.ts`)

Tab broadcasting via `chrome.tabs` is summarised by a single `broadcastOk`
flag (the outcome of the outer `try`); `id`/`now` stand for the generated
UUID and timestamp.  The function loops over `activeTokens`, computes
`revokeToken(token)` — whose returned record it discards — and pushes the
token id; since `revokeToken` never mutates its argument, the token records
the caller observes after the call are returned unchanged as the second
component. -/

/-- The `'button' | 'keyboard-shortcut' | 'api'` trigger union. -/
inductive KillTrigger where
  | button | keyboardShortcut | api
  deriving DecidableEq, Repr

/-- `KillSwitchEvent` from `src/types/events.ts` (timestamp as epoch ms). -/
structure KillSwitchEvent where
  id : String
  timestamp : Nat
  trigger : KillTrigger
  terminatedAgentIds : List String
  revokedTokenIds : List String
  cdpTerminated : Bool
  automationFlagsCleared : Bool
  deriving DecidableEq, Repr

/-- `executeBackgroundKillSwitch` from `src/killswitch/index.ts`, paired
with the caller-observed token records after the call. -/
def executeBackgroundKillSwitch (trigger : KillTrigger)
    (activeAgentIds : List String) (activeTokens : List DelegationToken)
    (id : String) (now : Nat) (broadcastOk : Bool) :
    KillSwitchEvent × List DelegationToken :=
  let revokedTokenIds := activeTokens.foldl
    (fun acc token =>
      let _ := revokeToken token
      acc ++ [token.tokenId]) []
  let cdpTerminated := broadcastOk
  let automationFlagsCleared := broadcastOk
  let event : KillSwitchEvent :=
    { id := id, timestamp := now, trigger := trigger,
      terminatedAgentIds := activeAgentIds,
      revokedTokenIds := revokedTokenIds,
      cdpTerminated := cdpTerminated,
      automationFlagsCleared := automationFlagsCleared }
  (event, activeTokens)

/-- `checkDelegationExpiration` from `src/background/index.ts`: every active
rule whose time bound has expired is deactivated in place; other rules are
left as they are. -/
def checkDelegationExpiration (now : Nat)
    (rules : List DelegationRule) : List DelegationRule :=
  rules.map (fun rule =>
    if rule.isActive && isTimeBoundExpired rule.scope.timeBound now then
      { rule with isActive := false }
    else rule)

/-! ## Session storage (`saveSession` in `src/session/storage.ts`)

The persistence layer is a `chrome.storage.local` document; we model the
stored document as a pure state and `saveSession` as its transformer
(read-modify-write of the `sessions` key).  Only the fields `saveSession`
touches are modelled; of a stored session only its identity matters to the
retention logic. -/

/-- A stored `AgentSession`, reduced to its identity. -/
structure AgentSession where
  id : String
  deriving DecidableEq, Repr

/-- The settings fields read by the storage functions
(`DEFAULT_SETTINGS.maxSessions = 5`). -/
structure UserSettings where
  maxSessions : Nat
  deriving DecidableEq, Repr

/-- `DEFAULT_SETTINGS` from `src/session/types.ts`. -/
def DEFAULT_SETTINGS : UserSettings :=
  { maxSessions := 5 }

/-- The stored document, restricted to the keys `saveSession` reads and
writes. -/
structure StorageSchema where
  sessions : List AgentSession
  settings : UserSettings
  deriving DecidableEq, Repr

/-- The default storage document. -/
def DEFAULT_STORAGE : StorageSchema :=
  { sessions := [], settings := DEFAULT_SETTINGS }

/-- `saveSession` from `src/session/storage.ts`: prepend the new session and
truncate (`sessions.length = maxSessions`) when the bound is exceeded. -/
def saveSession (session : AgentSession) (state : StorageSchema) : StorageSchema :=
  let sessions := session :: state.sessions
  let maxSessions := state.settings.maxSessions
  let sessions :=
    if sessions.length > maxSessions then sessions.take maxSessions else sessions
  { state with sessions := sessions }

/-- A sequence of `saveSession` calls, oldest first. -/
def saveSessions (sessions : List AgentSession) (state : StorageSchema) : StorageSchema :=
  sessions.foldl (fun st s => saveSession s st) state

/-! ## Delegation wizard (`src/delegation/wizard.ts`) -/

/-- `WizardStep`. -/
inductive WizardStep where
  | preset | sites | time | confirm
  deriving DecidableEq, Repr

/-- `WizardState` from `src/delegation/wizard.ts`. -/
structure WizardState where
  currentStep : WizardStep
  selectedPreset : Option DelegationPreset
  sitePatterns : List SitePattern
  durationMinutes : Option Nat
  label : String
  errors : List String
  deriving DecidableEq, Repr

/-- The `minutes` values of `TIME_DURATION_OPTIONS`. -/
def TIME_DURATION_OPTIONS : List Nat := [15, 60, 240]

/-- `createInitialWizardState`. -/
def createInitialWizardState : WizardState :=
  { currentStep := .preset, selectedPreset := none, sitePatterns := [],
    durationMinutes := none, label := "", errors := [] }

/-- `setDuration` from `src/delegation/wizard.ts`: only a duration from
`TIME_DURATION_OPTIONS` is accepted; anything else leaves the selection
unchanged and records an error. -/
def setDuration (state : WizardState) (minutes : Nat) : WizardState :=
  if TIME_DURATION_OPTIONS.contains minutes then
    { state with durationMinutes := some minutes, errors := [] }
  else
    { state with errors := ["Invalid duration. Choose 15 minutes, 1 hour, or 4 hours."] }

/-- `finalizeWizard` from `src/delegation/wizard.ts`: no preset ⇒ no rule;
for `limited`, an empty site-pattern list or an unset duration ⇒ no rule;
otherwise compile via `createRuleFromPreset`. -/
def finalizeWizard (state : WizardState) (now : Nat) (id : String) :
    Option DelegationRule :=
  match state.selectedPreset with
  | none => none
  | some preset =>
      if preset = .limited && state.sitePatterns.isEmpty then none
      else if preset = .limited && state.durationMinutes.isNone then none
      else
        some (createRuleFromPreset preset
          { sitePatterns := some state.sitePatterns,
            durationMinutes := state.durationMinutes,
            label := if state.label = "" then none else some state.label }
          now id)

/-! ## Concrete inputs used by witnesses and counterexamples -/

/-- An active rule with an empty restriction list, no site patterns and no
time bound (used to exercise the unlisted-capability deny branch). -/
def emptyRestrictionsRule : DelegationRule :=
  { id := "rule-empty", preset := .readOnly,
    scope := { sitePatterns := [], actionRestrictions := [], timeBound := none },
    createdAt := 0, isActive := true, label := none }

/-- An active full-access rule whose time bound expired at t = 500 ms. -/
def expiredActiveRule : DelegationRule :=
  { id := "rule-expired", preset := .fullAccess,
    scope :=
      { sitePatterns := [],
        actionRestrictions := buildActionRestrictions ALL_CAPABILITIES,
        timeBound := some { durationMinutes := 15, grantedAt := 0, expiresAt := 500 } },
    createdAt := 0, isActive := true, label := none }

/-- An unrevoked delegation token. -/
def unrevokedToken : DelegationToken :=
  { tokenId := "tok-1", ruleId := "rule-1", agentId := "agent-1", revoked := false }

/-- A wizard state that selected the limited preset but added no site
patterns and chose no duration. -/
def limitedWizardState : WizardState :=
  { currentStep := .sites, selectedPreset := some .limited, sitePatterns := [],
    durationMinutes := none, label := "", errors := [] }

/-- A negative probe result. -/
def negativeProbe : ProbeResult := { detected := false, confidence := .low }

/-- The probe outcome of `detectNavigatorAnomalies` in a headless context
(zero plugins): detected with confidence `'medium'`
(`src/detection/webdriver.ts`). -/
def navigatorMediumProbe : ProbeResult := { detected := true, confidence := .medium }

/-! ## Helper lemmas -/

/-- If no restriction lists the capability, the lookup takes the
default-block branch. -/
theorem evaluateActionRestrictions_not_listed (action : AgentCapability)
    (restrictions : List ActionRestriction)
    (h : ∀ r ∈ restrictions, r.capability ≠ action) :
    evaluateActionRestrictions action restrictions =
      { allowed := false, matchedRestriction := none } := by
  unfold evaluateActionRestrictions
  rw [List.find?_eq_none.mpr]
  intro r hr
  simpa using h r hr

/-- Taking `n` of an append is unaffected by pre-truncating the second
list.  Used to push `saveSession` truncations through a fold. -/
theorem take_append_take (n : Nat) (x y : List AgentSession) :
    (x ++ y.take n).take n = (x ++ y).take n := by
  rw [List.take_append_eq_append_take, List.take_append_eq_append_take,
    List.take_take, Nat.min_eq_left (Nat.sub_le n x.length)]

/-- `saveSession` always leaves the stored list equal to the truncated
prepend, and never touches the settings. -/
theorem saveSession_sessions (s : AgentSession) (st : StorageSchema) :
    (saveSession s st).sessions = (s :: st.sessions).take st.settings.maxSessions ∧
    (saveSession s st).settings = st.settings := by
  unfold saveSession
  constructor
  · by_cases h : (s :: st.sessions).length > st.settings.maxSessions
    · simp [h]
    · simp only [h, if_false]
      rw [List.take_of_length_le (Nat.le_of_not_lt h)]
  · by_cases h : (s :: st.sessions).length > st.settings.maxSessions <;> simp [h]

/-- Fold characterisation of a sequence of `saveSession` calls: starting
from a store already within its bound, the retained list is the truncated
reverse-chronological history. -/
theorem saveSessions_sessions (l : List AgentSession) (st : StorageSchema)
    (h : st.sessions.length ≤ st.settings.maxSessions) :
    (saveSessions l st).sessions =
      (l.reverse ++ st.sessions).take st.settings.maxSessions ∧
    (saveSessions l st).settings = st.settings := by
  induction l generalizing st with
  | nil =>
      simpa [saveSessions] using (List.take_of_length_le h).symm
  | cons a t ih =>
      have hsave := saveSession_sessions a st
      have hlen : (saveSession a st).sessions.length ≤
          (saveSession a st).settings.maxSessions := by
        rw [hsave.1, hsave.2]
        simp
      have ihst := ih (saveSession a st) hlen
      have hstep : saveSessions (a :: t) st = saveSessions t (saveSession a st) := rfl
      rw [hstep]
      refine ⟨?_, by rw [ihst.2, hsave.2]⟩
      rw [ihst.1, hsave.1, hsave.2, take_append_take,
        List.reverse_cons, List.append_assoc]
      rfl

/-- The token loop of `executeBackgroundKillSwitch` collects exactly the
token ids, in order. -/
theorem killswitch_token_fold (tokens : List DelegationToken)
    (acc : List String) :
    tokens.foldl (fun acc token =>
        let _ := revokeToken token
        acc ++ [token.tokenId]) acc =
      acc ++ tokens.map (fun t => t.tokenId) := by
  induction tokens generalizing acc with
  | nil => simp
  | cons t rest ih => simp [ih]

/-! ## Claim theorems -/

/-- C1: for every delegation rule, capability not present in the rule's
`actionRestrictions`, and target URL, `evaluateRule` denies — an unlisted
capability is never defaulted to allow, on any evaluation path. -/
theorem evaluateRule_unlisted_capability_denied
    (now : Nat) (rule : DelegationRule) (action : AgentCapability) (url : String)
    (h : ∀ r ∈ rule.scope.actionRestrictions, r.capability ≠ action) :
    (evaluateRule now rule action url).allowed = false := by
  have hAR := evaluateActionRestrictions_not_listed action rule.scope.actionRestrictions h
  unfold evaluateRule
  simp only [hAR]
  split
  · rfl
  · split
    · rfl
    · split <;> split <;> simp

/-- C1 witness: the empty-restrictions rule lists no capability at all, and
denies `click` at a concrete time and URL. -/
theorem evaluateRule_unlisted_capability_denied_witness :
    emptyRestrictionsRule.scope.actionRestrictions = [] ∧
    (evaluateRule 0 emptyRestrictionsRule .click "https://example.com").allowed = false :=
  ⟨rfl,
   evaluateRule_unlisted_capability_denied 0 emptyRestrictionsRule .click
     "https://example.com" (by decide)⟩

/-- C2 counterexample: at t = 1000 ms, the active rule expired at 500 ms is
denied with the expiry reason, but the rule the caller observes after the
call still has `isActive = true` — `evaluateRule` performs no deactivation
side effect, so the claim's conjunction fails at this input. -/
theorem evaluateRule_expired_no_deactivation :
    ¬ ((evaluateRuleObserved 1000 expiredActiveRule .click "https://example.com").1.allowed
        = false ∧
      (evaluateRuleObserved 1000 expiredActiveRule .click "https://example.com").1.reason
        = "Delegation has expired." ∧
      (evaluateRuleObserved 1000 expiredActiveRule .click "https://example.com").2.isActive
        = false) := by
  decide

/-- C2 (amended): an active rule with an expired time bound is denied with
reason "Delegation has expired." and the rule is returned to the caller
unchanged; the deactivation of expired rules is performed separately by the
periodic `checkDelegationExpiration` sweep, after which every rule with an
expired time bound is inactive. -/
theorem evaluateRule_expired_denies_and_sweep_deactivates :
    (∀ (now : Nat) (rule : DelegationRule) (action : AgentCapability) (url : String),
      rule.isActive = true →
      isTimeBoundExpired rule.scope.timeBound now = true →
      evaluateRuleObserved now rule action url =
        ({ allowed := false, reason := "Delegation has expired." }, rule)) ∧
    (∀ (now : Nat) (rules : List DelegationRule) (r : DelegationRule),
      r ∈ checkDelegationExpiration now rules →
      isTimeBoundExpired r.scope.timeBound now = true →
      r.isActive = false) := by
  constructor
  · intro now rule action url hActive hExpired
    unfold evaluateRuleObserved evaluateRule
    rw [hActive]
    simp [hExpired]
  · intro now rules r hr hExp
    unfold checkDelegationExpiration at hr
    rw [List.mem_map] at hr
    obtain ⟨x, hx, rfl⟩ := hr
    by_cases hc : (x.isActive && isTimeBoundExpired x.scope.timeBound now) = true
    · rw [if_pos hc]
    · rw [if_neg hc] at hExp ⊢
      simp only [Bool.and_eq_true] at hc
      rcases Bool.eq_false_or_eq_true x.isActive with ht | hf
      · exact absurd ⟨ht, hExp⟩ hc
      · exact hf

/-- C2 witness: the amended theorem applied to the concrete expired active
rule, and to the one concrete member of a one-rule expiration sweep. -/
theorem evaluateRule_expired_denies_witness :
    (expiredActiveRule.isActive = true ∧
      isTimeBoundExpired expiredActiveRule.scope.timeBound 1000 = true ∧
      evaluateRuleObserved 1000 expiredActiveRule .click "https://example.com" =
        ({ allowed := false, reason := "Delegation has expired." }, expiredActiveRule)) ∧
    ({ expiredActiveRule with isActive := false } ∈
        checkDelegationExpiration 1000 [expiredActiveRule] ∧
      ({ expiredActiveRule with isActive := false } : DelegationRule).isActive = false) :=
  ⟨⟨by decide, by decide,
    evaluateRule_expired_denies_and_sweep_deactivates.1 1000 expiredActiveRule .click
      "https://example.com" (by decide) (by decide)⟩,
   ⟨by decide,
    evaluateRule_expired_denies_and_sweep_deactivates.2 1000 [expiredActiveRule]
      { expiredActiveRule with isActive := false } (by decide) (by decide)⟩⟩

/-- C3: evaluation of `matchGlob` at the claim's inputs.  The hostname
examples and the malformed-URL case behave as stated (first three
conjuncts).  The last two conjuncts evaluate the code at the failing
inputs: under the documented semantics `**` matches any characters and, in
a scheme-bearing pattern, `*` is wild, so both should match — but the
replacement chain turns `**` into the regex `.[^.]*` (one character plus a
dotless run) and never rewrites `*` in the full-URL branch (the escape pass
skips `*`, so the later backslash-star rewrite finds nothing and `*` acts
as a bare quantifier on the preceding character), and both matches come out
false. -/
theorem matchGlob_examples_and_failing_inputs :
    matchGlob "https://sub.example.com/x" "*.example.com" = true ∧
    matchGlob "https://other.com/x" "*.example.com" = false ∧
    matchGlob "not a url" "*.example.com" = false ∧
    matchGlob "https://a.b.example.com/x" "**.example.com" = false ∧
    matchGlob "https://example.com/x" "https://example.com/*" = false := by
  decide

/-- C4: evaluation of the fusion at the failing input.  When the only
positive probe is the navigator-anomaly one (headless indicators, reported
with confidence `'medium'`), the sweep counts it as a detection but omits
its confidence from the list it maximises over, so the verdict confidence
is `'low'` instead of the positive signal's `'medium'`. -/
theorem runDetectionSweep_navigator_confidence_dropped :
    runDetectionSweep .low negativeProbe navigatorMediumProbe negativeProbe
        negativeProbe [] =
      { agentDetected := true, overallConfidence := .low } ∧
    navigatorMediumProbe.confidence = .medium ∧
    DetectionConfidence.low ≠ .medium ∧
    runDetectionSweep .low negativeProbe negativeProbe negativeProbe
        negativeProbe [] =
      { agentDetected := false, overallConfidence := .low } := by
  decide

/-- C5: evaluation of the kill switch at the failing input.  The returned
event lists exactly the token ids and the agent ids (first conjunct block,
proved for all inputs), but the tokens the caller observes after the call
are unchanged: the loop computes `revokeToken(token)` and discards the
returned copy, so no token ends up with `revoked = true`. -/
theorem executeBackgroundKillSwitch_discards_revocation :
    (∀ (trigger : KillTrigger) (agentIds : List String)
        (tokens : List DelegationToken) (id : String) (now : Nat) (b : Bool),
      (executeBackgroundKillSwitch trigger agentIds tokens id now b).1.revokedTokenIds =
        tokens.map (fun t => t.tokenId) ∧
      (executeBackgroundKillSwitch trigger agentIds tokens id now b).1.terminatedAgentIds =
        agentIds ∧
      (executeBackgroundKillSwitch trigger agentIds tokens id now b).2 = tokens) ∧
    (executeBackgroundKillSwitch .button ["agent-1"] [unrevokedToken] "evt-1" 1000
        true).1.revokedTokenIds = ["tok-1"] ∧
    ((executeBackgroundKillSwitch .button ["agent-1"] [unrevokedToken] "evt-1" 1000
        true).2.all (fun t => t.revoked)) = false := by
  refine ⟨?_, by decide, by decide⟩
  intro trigger agentIds tokens id now b
  refine ⟨?_, rfl, rfl⟩
  unfold executeBackgroundKillSwitch
  simpa using killswitch_token_fold tokens []

/-- C6 counterexample: a sweep in which a probe throws — shown both for the
first (webdriver) probe call and for a later (cdp) one — does not return a
verdict at all: the exception propagates (there is no try/catch around the
probe calls), refuting the claim that the sweep still returns a verdict
with the throwing probe treated as a negative signal. -/
theorem runDetectionSweepE_throwing_probe_aborts :
    runDetectionSweepE .low (.error ()) (.ok negativeProbe) (.ok negativeProbe)
        (.ok negativeProbe) (.ok []) = .error () ∧
    (runDetectionSweepE .low (.error ()) (.ok negativeProbe) (.ok negativeProbe)
        (.ok negativeProbe) (.ok [])).toOption = none ∧
    runDetectionSweepE .low (.ok negativeProbe) (.ok negativeProbe)
        (.ok negativeProbe) (.error ()) (.ok []) = .error () ∧
    (runDetectionSweepE .low (.ok negativeProbe) (.ok negativeProbe)
        (.ok negativeProbe) (.error ()) (.ok [])).toOption = none := by
  exact ⟨rfl, rfl, rfl, rfl⟩

/-- C6 (amended): `runDetectionSweep` calls its probes with no try/catch:
when every probe returns, the sweep returns the fused verdict, and a throw
in any of the five probe calls propagates and the sweep produces no
verdict.  The five error conjuncts cover a throw in each slot with every
earlier call returning; together with the all-ok conjunct they cover every
sweep, since any run either completes or has a first throwing call
(failure isolation exists only inside the individual probe
implementations, which catch their own risky host accesses). -/
theorem runDetectionSweepE_propagates_probe_exceptions :
    (∀ (minC : DetectionConfidence) (w n s c : ProbeResult) (f : List ProbeResult),
      runDetectionSweepE minC (.ok w) (.ok n) (.ok s) (.ok c) (.ok f) =
        .ok (runDetectionSweep minC w n s c f)) ∧
    (∀ (minC : DetectionConfidence) (e : Unit)
        (n s c : Except Unit ProbeResult) (f : Except Unit (List ProbeResult)),
      runDetectionSweepE minC (.error e) n s c f = .error e) ∧
    (∀ (minC : DetectionConfidence) (e : Unit) (w : ProbeResult)
        (s c : Except Unit ProbeResult) (f : Except Unit (List ProbeResult)),
      runDetectionSweepE minC (.ok w) (.error e) s c f = .error e) ∧
    (∀ (minC : DetectionConfidence) (e : Unit) (w n : ProbeResult)
        (c : Except Unit ProbeResult) (f : Except Unit (List ProbeResult)),
      runDetectionSweepE minC (.ok w) (.ok n) (.error e) c f = .error e) ∧
    (∀ (minC : DetectionConfidence) (e : Unit) (w n s : ProbeResult)
        (f : Except Unit (List ProbeResult)),
      runDetectionSweepE minC (.ok w) (.ok n) (.ok s) (.error e) f = .error e) ∧
    (∀ (minC : DetectionConfidence) (e : Unit) (w n s c : ProbeResult),
      runDetectionSweepE minC (.ok w) (.ok n) (.ok s) (.ok c) (.error e) =
        .error e) :=
  ⟨fun _ _ _ _ _ _ => rfl, fun _ _ _ _ _ _ => rfl, fun _ _ _ _ _ _ => rfl,
   fun _ _ _ _ _ _ => rfl, fun _ _ _ _ _ _ => rfl, fun _ _ _ _ _ _ => rfl⟩

/-- C7: compiling the limited preset through the wizard requires a
non-empty site-pattern list and a duration: with either missing,
`finalizeWizard` returns no rule; `setDuration` only accepts a duration
from the fixed set 15 / 60 / 240 minutes and leaves the selection
unchanged otherwise; and with both requirements met the wizard does
produce a rule. -/
theorem finalizeWizard_limited_requirements :
    (∀ (st : WizardState) (now : Nat) (id : String),
      st.selectedPreset = some .limited → st.sitePatterns = [] →
      finalizeWizard st now id = none) ∧
    (∀ (st : WizardState) (now : Nat) (id : String),
      st.selectedPreset = some .limited → st.durationMinutes = none →
      finalizeWizard st now id = none) ∧
    (∀ (st : WizardState) (m : Nat), ¬ (m = 15 ∨ m = 60 ∨ m = 240) →
      (setDuration st m).durationMinutes = st.durationMinutes) ∧
    (∀ (st : WizardState) (now : Nat) (id : String) (d : Nat),
      st.selectedPreset = some .limited → st.sitePatterns ≠ [] →
      st.durationMinutes = some d →
      (finalizeWizard st now id).isSome = true) := by
  refine ⟨?_, ?_, ?_, ?_⟩
  · intro st now id h1 h2
    unfold finalizeWizard
    rw [h1]
    simp [h2]
  · intro st now id h1 h2
    unfold finalizeWizard
    rw [h1]
    by_cases hp : st.sitePatterns.isEmpty <;> simp [hp, h2]
  · intro st m hm
    unfold setDuration
    rw [if_neg]
    intro hcont
    apply hm
    have hmem : m ∈ TIME_DURATION_OPTIONS := by simpa using hcont
    simpa [TIME_DURATION_OPTIONS] using hmem
  · intro st now id d h1 hne h3
    unfold finalizeWizard
    rw [h1]
    simp [h3, List.isEmpty_iff, hne]

/-- C7 witness: the limited wizard state with no site patterns and no
duration compiles to no rule, and an off-list duration (7 minutes) is
rejected by `setDuration`. -/
theorem finalizeWizard_limited_requirements_witness :
    (limitedWizardState.selectedPreset = some .limited ∧
      limitedWizardState.sitePatterns = [] ∧
      finalizeWizard limitedWizardState 0 "rule-1" = none) ∧
    (¬ ((7 : Nat) = 15 ∨ (7 : Nat) = 60 ∨ (7 : Nat) = 240) ∧
      (setDuration limitedWizardState 7).durationMinutes =
        limitedWizardState.durationMinutes) :=
  ⟨⟨rfl, rfl, finalizeWizard_limited_requirements.1 limitedWizardState 0 "rule-1" rfl rfl⟩,
   ⟨by decide, finalizeWizard_limited_requirements.2.2.1 limitedWizardState 7 (by decide)⟩⟩

/-- C8: the behavioral analyzers never report a detection below their
minimum sample sizes — fewer than 20 mouse events, or fewer than 5 clicks,
yield `detected = false` regardless of the events' content and of the
square-root interpretation. -/
theorem behavioral_minimum_sample_sizes :
    (∀ (sqrt : ℚ → ℚ) (events : List MouseEventSample), events.length < 20 →
      (analyzeMouseBehavior sqrt events).detected = false) ∧
    (∀ (sqrt : ℚ → ℚ) (clicks : List ClickSample), clicks.length < 5 →
      (analyzeClickPrecision sqrt clicks).detected = false) := by
  constructor
  · intro sqrt events h
    unfold analyzeMouseBehavior
    rw [if_pos (show events.length < minimumEventsRequired from h)]
  · intro sqrt clicks h
    unfold analyzeClickPrecision
    rw [if_pos h]

/-- C8 witness: the guards applied to empty buffers. -/
theorem behavioral_minimum_sample_sizes_witness :
    (([] : List MouseEventSample).length < 20 ∧
      (analyzeMouseBehavior id []).detected = false) ∧
    (([] : List ClickSample).length < 5 ∧
      (analyzeClickPrecision id []).detected = false) :=
  ⟨⟨by decide, behavioral_minimum_sample_sizes.1 id [] (by decide)⟩,
   ⟨by decide, behavioral_minimum_sample_sizes.2 id [] (by decide)⟩⟩

/-- C9: after any sequence of `saveSession` calls against the default
store (maximum 5), the retained list is the newest-first history truncated
to 5 — so at most 5 sessions are kept, the oldest evicted first, and
saving 7 sessions retains exactly the 5 most recent, newest first. -/
theorem saveSession_bounded_newest_first :
    (∀ (l : List AgentSession),
      (saveSessions l DEFAULT_STORAGE).sessions = l.reverse.take 5 ∧
      (saveSessions l DEFAULT_STORAGE).sessions.length ≤ 5) ∧
    (∀ (s1 s2 s3 s4 s5 s6 s7 : AgentSession),
      (saveSessions [s1, s2, s3, s4, s5, s6, s7] DEFAULT_STORAGE).sessions =
        [s7, s6, s5, s4, s3]) := by
  have hmain : ∀ (l : List AgentSession),
      (saveSessions l DEFAULT_STORAGE).sessions = l.reverse.take 5 := by
    intro l
    have h := (saveSessions_sessions l DEFAULT_STORAGE
      (by simp [DEFAULT_STORAGE, DEFAULT_SETTINGS])).1
    simpa [DEFAULT_STORAGE, DEFAULT_SETTINGS] using h
  refine ⟨fun l => ⟨hmain l, ?_⟩, fun s1 s2 s3 s4 s5 s6 s7 => by rw [hmain]; rfl⟩
  rw [hmain l, List.length_take]
  exact Nat.min_le_left _ _

/-- C10: every rule compiled by `createRuleFromPreset` — for any preset,
options, time and id — is active, and its restriction list names each of
the 11 capabilities exactly once, so the unlisted-capability deny branch of
`evaluateActionRestrictions` never fires on a compiled rule. -/
theorem createRuleFromPreset_complete_and_active :
    ∀ (preset : DelegationPreset) (options : RuleOptions) (now : Nat) (id : String),
      (createRuleFromPreset preset options now id).isActive = true ∧
      ∀ c : AgentCapability,
        ((createRuleFromPreset preset options now id).scope.actionRestrictions.filter
            (fun r => r.capability = c)).length = 1 ∧
        (evaluateActionRestrictions c
            (createRuleFromPreset preset options now
              id).scope.actionRestrictions).matchedRestriction.isSome = true := by
  intro preset options now id
  refine ⟨?_, fun c => ?_⟩
  · cases preset <;> rfl
  · cases preset with
    | readOnly =>
        rw [show (createRuleFromPreset .readOnly options now id).scope.actionRestrictions
            = buildActionRestrictions READ_ONLY_CAPABILITIES from rfl]
        cases c <;> exact ⟨by decide, by decide⟩
    | limited =>
        rw [show (createRuleFromPreset .limited options now id).scope.actionRestrictions
            = buildActionRestrictions LIMITED_CAPABILITIES from rfl]
        cases c <;> exact ⟨by decide, by decide⟩
    | fullAccess =>
        rw [show (createRuleFromPreset .fullAccess options now id).scope.actionRestrictions
            = buildActionRestrictions ALL_CAPABILITIES from rfl]
        cases c <;> exact ⟨by decide, by decide⟩

end BrowserGuard
